import Mathlib

/-
  Verification development for the stackhut build command module
  (src/stackhut/build_commands.py).

  The Python module is embedded shallowly:
  - machine state (existing directories, current working directory, the
    module-level root directory captured at import time, and the trace of
    external invocations) is passed explicitly as a BuildState value;
  - external collaborators (the template engine, docker build/push, git
    clone, the barrister contract compiler) are modelled by trace events,
    with Boolean oracles deciding whether each kind of invocation succeeds;
  - Python exceptions are modelled by an Option PyErr result paired with
    the state at the moment the exception was raised, since the Python
    code performs no exception handling of its own.
-/

/-- Kinds of Python exceptions the module can raise or propagate. -/
inductive PyErr where
  | fileExists
  | fileNotFound
  | external
  | attributeError
  | typeError
  | notImplemented
  | indexError
deriving DecidableEq, Repr

/-- External invocations and filesystem writes performed by the module,
recorded in order of occurrence. -/
inductive Event where
  | render (templateName : String)
  | writeFile (path : String)
  | dockerBuild (tag : String)
  | dockerPush (tag : String)
  | barrister
  | gitClone (url : String) (dest : String)
deriving DecidableEq, Repr

/-- Process-wide state: the set of existing directories (absolute paths),
the current working directory, the module-level root directory
(the cwd captured at import time, line 12 of the source), and the
trace of external events. -/
structure BuildState where
  dirs : List String
  cwd : String
  root : String
  events : List Event
deriving DecidableEq, Repr

/-- Join two path components, as os.path.join does for relative parts. -/
def pathJoin (a b : String) : String :=
  if a = "" then b else a ++ "/" ++ b

/-- Append one event to the trace. -/
def addEvent (s : BuildState) (e : Event) : BuildState :=
  { s with events := s.events ++ [e] }

/-- os.mkdir: creates the directory, raising FileExistsError when it is
already present. -/
def os_mkdir (d : String) (s : BuildState) : BuildState × Option PyErr :=
  if s.dirs.contains d then (s, some PyErr.fileExists)
  else ({ s with dirs := d :: s.dirs }, none)

/-- Whether one path is a prefix of another, character by character. -/
def strIsPrefixOf (p x : String) : Bool :=
  List.isPrefixOf p.data x.data

/-- Remove a directory and everything under it from the directory set. -/
def removeTree (d : String) (ds : List String) : List String :=
  ds.filter (fun x => !(x == d || strIsPrefixOf (d ++ "/") x))

/-- shutil.rmtree without ignore_errors: FileNotFoundError when the
directory is absent. -/
def rmtreeStrict (d : String) (s : BuildState) : BuildState × Option PyErr :=
  if s.dirs.contains d then ({ s with dirs := removeTree d s.dirs }, none)
  else (s, some PyErr.fileNotFound)

/-- shutil.rmtree with ignore_errors set: never raises. -/
def rmtreeIgnore (d : String) (s : BuildState) : BuildState :=
  { s with dirs := removeTree d s.dirs }

/-- The runtime classes a value passed positionally can have in this
module: a string, a Boolean, a BaseOS instance or a Stack instance.
Needed because StackBuildCmd.run (line 198) passes its arguments to
Stack.build in a different order than that method declares them. -/
inductive BaseKind where
  | fedora
  | alpine
  | baseObj
deriving DecidableEq, Repr

/-- The Stack classes defined by the module. baseObj and stackObj stand
for direct instances of the (instantiable) base classes BaseOS and
Stack, whose name attribute is None; the dispatch table of
get_stack_install_cmd declares no rule for them, so they reach the
default (object, object) handler. -/
inductive StackKind where
  | python
  | nodejs
  | stackObj
deriving DecidableEq, Repr

/-- Python values that flow through the build methods. -/
inductive PyVal where
  | vstr (s : String)
  | vbool (b : Bool)
  | vbase (b : BaseKind)
  | vstack (s : StackKind)
deriving DecidableEq, Repr

/-- Python truthiness of the values above. -/
def pyTruthy : PyVal → Bool
  | PyVal.vstr s => !(s = "")
  | PyVal.vbool b => b
  | PyVal.vbase _ => true
  | PyVal.vstack _ => true

/-- The name attribute of each BaseOS class: None on the base class,
a distro name on each subclass (lines 42, 59, 84). -/
def BaseOS.name : BaseKind → Option String
  | BaseKind.fedora => some "fedora"
  | BaseKind.alpine => some "alpine"
  | BaseKind.baseObj => none

/-- The name attribute of each Stack class (lines 111, 130, 137). -/
def Stack.name : StackKind → Option String
  | StackKind.python => some "python"
  | StackKind.nodejs => some "nodejs"
  | StackKind.stackObj => none

/-- The entrypoint attribute of each Stack class (lines 112, 131, 138). -/
def Stack.entrypoint : StackKind → Option String
  | StackKind.python => some "app.py"
  | StackKind.nodejs => some "app.js"
  | StackKind.stackObj => none

/-- How str.format renders a name attribute: None prints as "None". -/
def pyFormatName : Option String → String
  | some s => s
  | none => "None"

/-- Python str.lower, mapping every character to lowercase. -/
def pyLower (s : String) : String :=
  String.mk (s.data.map Char.toLower)

/-- Python equality test name == other where name may be None;
None never equals a string. -/
def nameMatches (n : Option String) (m : String) : Bool :=
  match n with
  | some x => x == m
  | none => false

/-- Fedora.os_pkg_cmd (lines 63-64). -/
def Fedora.os_pkg_cmd (pkgs : List String) : String :=
  "dnf -y install " ++ String.intercalate " " pkgs

/-- Fedora.install_os_pkg (lines 66-77). -/
def Fedora.install_os_pkg (pkgs : List String) : List String :=
  [Fedora.os_pkg_cmd pkgs,
   "dnf -y autoremove",
   "dnf -y clean all",
   "rm -rf /usr/share/locale/*",
   "rm -rf /usr/share/doc/*",
   "journalctl --vacuum-size=0",
   "rm -rf /var/log/* || true",
   "rm -rf /var/cache/*",
   "rm -rf /tmp/*"]

/-- Alpine.os_pkg_cmd (lines 88-89). -/
def Alpine.os_pkg_cmd (pkgs : List String) : String :=
  "apk --update add " ++ String.intercalate " " pkgs

/-- Alpine.install_os_pkg (lines 91-100). -/
def Alpine.install_os_pkg (pkgs : List String) : List String :=
  [Alpine.os_pkg_cmd pkgs,
   "rm -rf /usr/share/locale/*",
   "rm -rf /usr/share/doc/*",
   "rm -rf /var/log/* || true",
   "rm -rf /var/cache/*",
   "rm -rf /tmp/*",
   "mkdir /var/cache/apk"]

/-- DockerEnv.build (lines 15-37): ensure the per-image staging
directory exists (guarded mkdir), chdir into it, render the template
and write the Dockerfile, run docker build with the stackhut namespace
tag and optionally docker push, then chdir back to the module root.
The chdir back to the root is the last statement of the method and is
not protected by any finally block, exactly as in the source. The
renderOk, buildOk and pushOk oracles decide whether the template
engine, docker build and docker push invocations succeed. -/
def DockerEnv.build (templateName outdir imageName : String) (push : Bool)
    (renderOk buildOk pushOk : Bool) (s : BuildState) :
    BuildState × Option PyErr :=
  let imageDir := pathJoin outdir imageName
  let imageDirAbs := pathJoin s.cwd imageDir
  let r0 :=
    if s.dirs.contains imageDirAbs then (s, (none : Option PyErr))
    else os_mkdir imageDirAbs s
  match r0 with
  | (s0, some e) => (s0, some e)
  | (s0, none) =>
    let s1 := { s0 with cwd := pathJoin s0.cwd imageDir }
    let s2 := addEvent s1 (Event.render templateName)
    if renderOk = false then (s2, some PyErr.external) else
    let s3 := addEvent s2 (Event.writeFile (pathJoin s1.cwd "Dockerfile"))
    let tag := "stackhut/" ++ imageName ++ ":latest"
    let s4 := addEvent s3 (Event.dockerBuild tag)
    if buildOk = false then (s4, some PyErr.external) else
    if push then
      let s5 := addEvent s4 (Event.dockerPush tag)
      if pushOk = false then (s5, some PyErr.external) else
      ({ s5 with cwd := s5.root }, none)
    else ({ s4 with cwd := s4.root }, none)

/-- The multipledispatch table for get_stack_install_cmd
(lines 143-163): four declared rules and a default (object, object)
handler that logs an error and raises NotImplementedError. A result of
ok none embeds the Python return value None, the Unsupported sentinel;
ok (some cmds) embeds a returned command list. -/
def get_stack_install_cmd (base_os : BaseKind) (stack : StackKind) :
    Except PyErr (Option (List String)) :=
  match base_os, stack with
  | BaseKind.fedora, StackKind.python => Except.ok (some [])
  | BaseKind.alpine, StackKind.python => Except.ok (some [])
  | BaseKind.fedora, StackKind.nodejs => Except.ok none
  | BaseKind.alpine, StackKind.nodejs =>
      Except.ok (some (Alpine.install_os_pkg ["iojs@testing"]))
  | _, _ => Except.error PyErr.notImplemented

/-- The set of pairs for which a dispatch rule is declared
(the four non-default dispatch declarations, lines 143-158). -/
def declaredPair : BaseKind → StackKind → Bool
  | BaseKind.fedora, StackKind.python => true
  | BaseKind.alpine, StackKind.python => true
  | BaseKind.fedora, StackKind.nodejs => true
  | BaseKind.alpine, StackKind.nodejs => true
  | _, _ => false

/-- The catalog of base OS instances (line 166). Its construction
performs no completeness check against the dispatch table. -/
def bases : List BaseKind := [BaseKind.fedora, BaseKind.alpine]

/-- The catalog of stack instances, source name stacks (line 167); the source name is a reserved token here. -/
def stacksList : List StackKind := [StackKind.python, StackKind.nodejs]

/-- get_base (lines 169-170): filter the catalog by name and take
element zero; an empty filter result raises IndexError. -/
def get_base (base_name : String) : Except PyErr BaseKind :=
  match bases.filter (fun base => nameMatches (BaseOS.name base) base_name) with
  | [] => Except.error PyErr.indexError
  | b :: _ => Except.ok b

/-- get_stack (lines 172-173). -/
def get_stack (stack_name : String) : Except PyErr StackKind :=
  match stacksList.filter (fun stack => nameMatches (Stack.name stack) stack_name) with
  | [] => Except.error PyErr.indexError
  | st :: _ => Except.ok st

/-- BaseOS.build (lines 48-51): the image name is the name attribute,
passed to the shared DockerEnv.build with the base template. A None
name would make os.path.join raise TypeError; every catalog member has
a string name. -/
def BaseOS.build (self : BaseKind) (outdir : String) (push : Bool)
    (renderOk buildOk pushOk : Bool) (s : BuildState) :
    BuildState × Option PyErr :=
  match BaseOS.name self with
  | some n => DockerEnv.build "Dockerfile-base.txt" outdir n push renderOk buildOk pushOk s
  | none => (s, some PyErr.typeError)

/-- Stack.build (lines 118-126), with the positional arguments as
dynamic Python values since the call site in StackBuildCmd.run passes
them in a different order than declared. Accessing name on a string or
Boolean argument (the log call, line 119) raises AttributeError. When
the first argument is a Stack instance, the dispatch at line 121
reaches the default handler and NotImplementedError propagates. When
resolution returns None the pair is unsupported and the method returns
without rendering or building; otherwise the shared DockerEnv.build
runs, with TypeError if the outdir argument is not a string. -/
def Stack.build (self : StackKind) (base outdir push : PyVal)
    (renderOk buildOk pushOk : Bool) (s : BuildState) :
    BuildState × Option PyErr :=
  match base with
  | PyVal.vstr _ => (s, some PyErr.attributeError)
  | PyVal.vbool _ => (s, some PyErr.attributeError)
  | PyVal.vstack _ => (s, some PyErr.notImplemented)
  | PyVal.vbase bk =>
    let imageName := pyFormatName (BaseOS.name bk) ++ "-" ++ pyFormatName (Stack.name self)
    match get_stack_install_cmd bk self with
    | Except.error e => (s, some e)
    | Except.ok none => (s, none)
    | Except.ok (some _) =>
      match outdir with
      | PyVal.vstr od =>
          DockerEnv.build "Dockerfile-stack.txt" od imageName (pyTruthy push)
            renderOk buildOk pushOk s
      | _ => (s, some PyErr.typeError)

/-- StackBuildCmd constructor body (lines 190-191): create the output
directory when absent. -/
def StackBuildCmd.init (outdir : String) (s : BuildState) :
    BuildState × Option PyErr :=
  if s.dirs.contains (pathJoin s.cwd outdir) then (s, none)
  else os_mkdir (pathJoin s.cwd outdir) s

/-- The list comprehension over bases at line 197: sequential builds,
the first exception aborting the rest. -/
def buildBasesLoop (outdir : String) (push renderOk buildOk pushOk : Bool) :
    List BaseKind → BuildState → BuildState × Option PyErr
  | [], s => (s, none)
  | bk :: rest, s =>
    match BaseOS.build bk outdir push renderOk buildOk pushOk s with
    | (s2, none) => buildBasesLoop outdir push renderOk buildOk pushOk rest s2
    | (s2, some e) => (s2, some e)

/-- The inner loop over stacksList of the comprehension at line 198. The
call site reads s.build(self.outdir, self.push, b), so the string
outdir is bound to the base parameter, the Boolean push to the outdir
parameter and the BaseOS instance to the push parameter. -/
def buildStacksInner (outdir : String) (push renderOk buildOk pushOk : Bool)
    (bk : BaseKind) :
    List StackKind → BuildState → BuildState × Option PyErr
  | [], s => (s, none)
  | sk :: rest, s =>
    match Stack.build sk (PyVal.vstr outdir) (PyVal.vbool push) (PyVal.vbase bk)
        renderOk buildOk pushOk s with
    | (s2, none) => buildStacksInner outdir push renderOk buildOk pushOk bk rest s2
    | (s2, some e) => (s2, some e)

/-- The outer loop over bases of the comprehension at line 198. -/
def buildStacksLoop (outdir : String) (push renderOk buildOk pushOk : Bool) :
    List BaseKind → BuildState → BuildState × Option PyErr
  | [], s => (s, none)
  | bk :: rest, s =>
    match buildStacksInner outdir push renderOk buildOk pushOk bk stacksList s with
    | (s2, none) => buildStacksLoop outdir push renderOk buildOk pushOk rest s2
    | (s2, some e) => (s2, some e)

/-- StackBuildCmd.run (lines 194-199): build every base, then run the
(base, stack) sweep with the argument order of line 198. -/
def StackBuildCmd.run (outdir : String) (push renderOk buildOk pushOk : Bool)
    (s : BuildState) : BuildState × Option PyErr :=
  match buildBasesLoop outdir push renderOk buildOk pushOk bases s with
  | (s2, some e) => (s2, some e)
  | (s2, none) => buildStacksLoop outdir push renderOk buildOk pushOk bases s2

/-- The stackbuild command: constructor followed by run. -/
def stackbuild (outdir : String) (push renderOk buildOk pushOk : Bool)
    (s : BuildState) : BuildState × Option PyErr :=
  match StackBuildCmd.init outdir s with
  | (s1, some e) => (s1, some e)
  | (s1, none) => StackBuildCmd.run outdir push renderOk buildOk pushOk s1

/-- A fresh process state: module imported at the root directory, no
tracked directories, empty trace. -/
def initState : BuildState :=
  { dirs := [], cwd := "", root := "", events := [] }

/-- The manifest map read from the Hutfile: required keys name, author,
contact, description, baseos and stack, optional key files. -/
structure Hutfile where
  name : String
  author : String
  contact : String
  description : String
  baseos : String
  stack : String
  files : Option (List String)
deriving DecidableEq, Repr

/-- The Service value built by Service deriving fields from the manifest
(lines 203-218). -/
structure Service where
  name : String
  author : String
  email : String
  version : String
  description : String
  files : List String
  os_deps : List String
  lang_deps : Bool
  docker_cmds : List String
  base : BaseKind
  stack : StackKind
  from_image : String
deriving DecidableEq, Repr

/-- The Service constructor (lines 204-218): lowercase the name and
author, fix the version to latest, default the file list, look the
baseos and stack names up in the static catalogs (errors from get_base
and get_stack propagate, get_base first), and derive from_image as
base.name dash stack.name. -/
def Service.init (hutfile : Hutfile) : Except PyErr Service :=
  match get_base hutfile.baseos with
  | Except.error e => Except.error e
  | Except.ok base =>
    match get_stack hutfile.stack with
    | Except.error e => Except.error e
    | Except.ok stack =>
      Except.ok
        { name := pyLower hutfile.name
          author := pyLower hutfile.author
          email := hutfile.contact
          version := "latest"
          description := hutfile.description
          files := hutfile.files.getD []
          os_deps := []
          lang_deps := false
          docker_cmds := []
          base := base
          stack := stack
          from_image := pyFormatName (BaseOS.name base) ++ "-"
            ++ pyFormatName (Stack.name stack) }

/-- Modelled from the spec: the helper write_dockerfile called at line
243 is defined in the stackhut.utils module of this repository, which
is not under src. Per the spec (section 4.5 step 3 and section 6) it
writes the rendered build description into the dedicated dot-prefixed
build-context subdirectory .stackhut as its fixed Dockerfile, creating
that subdirectory. -/
def write_dockerfile (s : BuildState) : BuildState :=
  let d := pathJoin s.cwd ".stackhut"
  let s1 := if s.dirs.contains d then s else { s with dirs := d :: s.dirs }
  addEvent s1 (Event.writeFile (pathJoin d "Dockerfile"))

/-- HutBuildCmd.run (lines 235-266): construct the Service, render the
service template and write it under .stackhut, invoke the barrister
contract compiler, remove any stale clone (ignoring errors), git clone
the stackhut-app tree, strip its .git metadata, run docker build with
the author slash name colon version tag, optionally docker push, and
finally remove the stackhut clone. No step is wrapped in any exception
handler, so the first failure propagates immediately and the
statements after it, the final rmtree included, do not run. The
renderOk, compileOk, cloneOk, buildOk and pushOk oracles decide
whether the template engine, barrister, git clone, docker build and
docker push invocations succeed. -/
def HutBuildCmd.run (hutfile : Hutfile) (push : Bool)
    (renderOk compileOk cloneOk buildOk pushOk : Bool) (s : BuildState) :
    BuildState × Option PyErr :=
  match Service.init hutfile with
  | Except.error e => (s, some e)
  | Except.ok service =>
    let s1 := addEvent s (Event.render "Dockerfile-service.txt")
    if renderOk = false then (s1, some PyErr.external) else
    let s2 := write_dockerfile s1
    let s3 := addEvent s2 Event.barrister
    if compileOk = false then (s3, some PyErr.external) else
    let s4 := rmtreeIgnore (pathJoin s3.cwd "stackhut") s3
    let s5 := addEvent s4
      (Event.gitClone "git@github.com:StackHut/stackhut-app.git" "stackhut")
    if cloneOk = false then (s5, some PyErr.external) else
    let s6 := { s5 with
      dirs := pathJoin s5.cwd "stackhut/.git" :: pathJoin s5.cwd "stackhut" :: s5.dirs }
    match rmtreeStrict (pathJoin s6.cwd "stackhut/.git") s6 with
    | (s7, some e) => (s7, some e)
    | (s7, none) =>
      let tag := service.author ++ "/" ++ service.name ++ ":" ++ service.version
      let s8 := addEvent s7 (Event.dockerBuild tag)
      if buildOk = false then (s8, some PyErr.external) else
      let s9 := if push then addEvent s8 (Event.dockerPush tag) else s8
      if push && (pushOk = false) then (s9, some PyErr.external) else
      rmtreeStrict (pathJoin s9.cwd "stackhut") s9

/-- The end-to-end manifest of the spec test case. -/
def fooHutfile : Hutfile :=
  { name := "Foo"
    author := "Bar"
    contact := "a@b.com"
    description := "d"
    baseos := "alpine"
    stack := "python"
    files := some [] }

/-- C1: the compatibility resolution returns exactly the concrete cases
of the spec: Fedora with Python and Alpine with Python resolve to the
empty command list, Fedora with NodeJS resolves to the Unsupported
sentinel (Python None, embedded as ok none), and Alpine with NodeJS
resolves to the Alpine install-command sequence for ["iojs@testing"]. -/
theorem c1_resolve_concrete_cases :
    get_stack_install_cmd BaseKind.fedora StackKind.python = Except.ok (some [])
    ∧ get_stack_install_cmd BaseKind.alpine StackKind.python = Except.ok (some [])
    ∧ get_stack_install_cmd BaseKind.fedora StackKind.nodejs = Except.ok none
    ∧ get_stack_install_cmd BaseKind.alpine StackKind.nodejs
        = Except.ok (some (Alpine.install_os_pkg ["iojs@testing"])) := by
  refine ⟨rfl, rfl, rfl, rfl⟩

/-- C2 (code bug): the shared build procedure does not restore the
build context on every exit path. DockerEnv.build performs the
restoring chdir as its final statement with no finally protection, so
when the template render (or the docker invocation) raises, the
process working directory is left inside the per-image staging
directory instead of the context active before the attempt: here the
attempt starts with cwd at the root and a failing render leaves cwd at
stacks/fedora. The last conjunct shows the success path does restore
the root context. -/
theorem c2_context_not_restored_on_failure :
    initState.cwd = ""
    ∧ (DockerEnv.build "Dockerfile-base.txt" "stacks" "fedora" false false true true
        initState).snd = some PyErr.external
    ∧ (DockerEnv.build "Dockerfile-base.txt" "stacks" "fedora" false false true true
        initState).fst.cwd = "stacks/fedora"
    ∧ (DockerEnv.build "Dockerfile-base.txt" "stacks" "fedora" false true true true
        initState).fst.cwd = "" :=
  ⟨rfl, rfl, rfl, rfl⟩

/-- C3 (code bug): running stackbuild builds both base images, but the
(base, stack) sweep never builds any combined image: line 198 passes
the arguments (outdir, push, base) positionally into the parameters
(base, outdir, push) of Stack.build, so the first iteration evaluates
the name attribute of the string outdir and raises AttributeError,
aborting the sweep. The final trace holds exactly the two base builds
and the run ends with the error. -/
theorem c3_stackbuild_sweep_crashes :
    stackbuild "stacks" false true true true initState
      = ({ dirs := ["stacks/alpine", "stacks/fedora", "stacks"]
           cwd := ""
           root := ""
           events := [Event.render "Dockerfile-base.txt",
                      Event.writeFile "stacks/fedora/Dockerfile",
                      Event.dockerBuild "stackhut/fedora:latest",
                      Event.render "Dockerfile-base.txt",
                      Event.writeFile "stacks/alpine/Dockerfile",
                      Event.dockerBuild "stackhut/alpine:latest"] },
         some PyErr.attributeError) :=
  rfl

/-- C5: the foo manifest yields a service with from_image alpine-python
and image tag bar/foo:latest, and the service build flow performs
exactly one contract-compiler invocation (barrister), then exactly one
source fetch (git clone), then exactly one image build, and, exactly
when the push flag is set, exactly one push, in that order: the two
trace equalities list every external invocation of the flow in
order. -/
theorem c5_service_flow_foo_manifest :
    Service.init fooHutfile
      = Except.ok
          { name := "foo"
            author := "bar"
            email := "a@b.com"
            version := "latest"
            description := "d"
            files := []
            os_deps := []
            lang_deps := false
            docker_cmds := []
            base := BaseKind.alpine
            stack := StackKind.python
            from_image := "alpine-python" }
    ∧ (HutBuildCmd.run fooHutfile false true true true true true initState).fst.events
      = [Event.render "Dockerfile-service.txt",
         Event.writeFile ".stackhut/Dockerfile",
         Event.barrister,
         Event.gitClone "git@github.com:StackHut/stackhut-app.git" "stackhut",
         Event.dockerBuild "bar/foo:latest"]
    ∧ (HutBuildCmd.run fooHutfile false true true true true true initState).snd = none
    ∧ (HutBuildCmd.run fooHutfile true true true true true true initState).fst.events
      = [Event.render "Dockerfile-service.txt",
         Event.writeFile ".stackhut/Dockerfile",
         Event.barrister,
         Event.gitClone "git@github.com:StackHut/stackhut-app.git" "stackhut",
         Event.dockerBuild "bar/foo:latest",
         Event.dockerPush "bar/foo:latest"]
    ∧ (HutBuildCmd.run fooHutfile true true true true true true initState).snd = none :=
  ⟨rfl, rfl, rfl, rfl, rfl⟩

/-- C7 (code bug): the service build flow does not remove all transient
staging subtrees on every path. On the success path the cleanup
section removes only the cloned vendor tree stackhut and leaves the
rendered build-context subdirectory .stackhut in place; on a failing
docker build the flow propagates the error immediately and removes
neither subtree. -/
theorem c7_transient_subtrees_left_behind :
    (HutBuildCmd.run fooHutfile false true true true true true initState).fst.dirs
      = [".stackhut"]
    ∧ (HutBuildCmd.run fooHutfile false true true true true true initState).snd = none
    ∧ (HutBuildCmd.run fooHutfile false true true true false true initState).fst.dirs
      = ["stackhut", ".stackhut"]
    ∧ (HutBuildCmd.run fooHutfile false true true true false true initState).snd
      = some PyErr.external :=
  ⟨rfl, rfl, rfl, rfl⟩

/-- C4 counterexample: resolving a pair with no declared dispatch rule
(here an instance of the source class Stack, whose pair with Fedora is
not in the dispatch table) raises NotImplementedError at the moment
resolution is invoked, via the default object-object handler at lines
160-163 — the failure is first raised by resolution, not detected
beforehand; the catalog construction at lines 166-167 is a pair of
plain list literals with no completeness check. -/
theorem c4_undeclared_pair_raises_at_call :
    get_stack_install_cmd BaseKind.fedora StackKind.stackObj
      = Except.error PyErr.notImplemented :=
  rfl

/-- C4 amended: a pair not declared in the dispatch table is not
detected at catalog-construction time — construction performs no
completeness check — and the missing declaration first surfaces as a
fatal NotImplementedError raised by the default dispatch handler when
resolution is invoked for that pair. -/
theorem c4_undeclared_pair_fails_at_resolution (bk : BaseKind) (sk : StackKind)
    (h : declaredPair bk sk = false) :
    get_stack_install_cmd bk sk = Except.error PyErr.notImplemented := by
  cases bk <;> cases sk <;> first
    | rfl
    | exact absurd h (by decide)

/-- C4 amended witness at the pair of Alpine with a Stack instance. -/
theorem c4_witness :
    declaredPair BaseKind.alpine StackKind.stackObj = false
    ∧ get_stack_install_cmd BaseKind.alpine StackKind.stackObj
      = Except.error PyErr.notImplemented :=
  ⟨by decide,
   c4_undeclared_pair_fails_at_resolution BaseKind.alpine StackKind.stackObj (by decide)⟩

/-- C6: a pair explicitly declared unsupported in the dispatch table
(Fedora with NodeJS, whose rule returns None) makes Stack.build return
with the state untouched — no template render, no external build, no
error — while a pair with no declared rule makes the same build raise
the fatal NotImplementedError of the default dispatch handler; the two
situations are never conflated. -/
theorem c6_unsupported_skip_undeclared_fatal (od : String) (p r b pk : Bool)
    (s : BuildState) :
    Stack.build StackKind.nodejs (PyVal.vbase BaseKind.fedora) (PyVal.vstr od)
        (PyVal.vbool p) r b pk s = (s, none)
    ∧ (∀ bk sk, declaredPair bk sk = false →
        Stack.build sk (PyVal.vbase bk) (PyVal.vstr od) (PyVal.vbool p) r b pk s
          = (s, some PyErr.notImplemented)) := by
  constructor
  · rfl
  · intro bk sk h
    cases bk <;> cases sk <;> first
      | rfl
      | exact absurd h (by decide)

/-- C6 witness: the unsupported pair skips and the pair of Fedora with
a plain Stack instance is fatal, at concrete inputs. -/
theorem c6_witness :
    declaredPair BaseKind.fedora StackKind.stackObj = false
    ∧ Stack.build StackKind.nodejs (PyVal.vbase BaseKind.fedora) (PyVal.vstr "stacks")
        (PyVal.vbool false) true true true initState = (initState, none)
    ∧ Stack.build StackKind.stackObj (PyVal.vbase BaseKind.fedora) (PyVal.vstr "stacks")
        (PyVal.vbool false) true true true initState
      = (initState, some PyErr.notImplemented) :=
  ⟨by decide,
   (c6_unsupported_skip_undeclared_fatal "stacks" false true true true initState).1,
   (c6_unsupported_skip_undeclared_fatal "stacks" false true true true initState).2
     BaseKind.fedora StackKind.stackObj (by decide)⟩

/-- Helper: a name matched by no base in the catalog filters to the
empty list, so get_base raises IndexError. -/
theorem get_base_missing (n : String)
    (h : ∀ bk, bk ∈ bases → nameMatches (BaseOS.name bk) n = false) :
    get_base n = Except.error PyErr.indexError := by
  have h1 := h BaseKind.fedora (by simp [bases])
  have h2 := h BaseKind.alpine (by simp [bases])
  simp [get_base, bases, List.filter, h1, h2]

/-- Helper: a name matched by no stack in the catalog filters to the
empty list, so get_stack raises IndexError. -/
theorem get_stack_missing (n : String)
    (h : ∀ sk, sk ∈ stacksList → nameMatches (Stack.name sk) n = false) :
    get_stack n = Except.error PyErr.indexError := by
  have h1 := h StackKind.python (by simp [stacksList])
  have h2 := h StackKind.nodejs (by simp [stacksList])
  simp [get_stack, stacksList, List.filter, h1, h2]

/-- Helper: the only error get_base can produce is the IndexError of
the element-zero access on an empty filter result. -/
theorem get_base_error_indexError (n : String) (e : PyErr)
    (h : get_base n = Except.error e) : e = PyErr.indexError := by
  unfold get_base at h
  split at h <;> simp_all

/-- C8: a manifest whose baseos or stack name is matched by no catalog
entry makes the lookup, and hence the Service constructor, fail
immediately with the IndexError realising the UnknownCatalogEntry
failure — no default entry is substituted — while every name present
in a catalog returns the unique entry carrying it. The hf conjunct
covers a manifest with an unknown baseos, the hg conjunct a manifest
with an unknown stack and any baseos whatever. -/
theorem c8_catalog_lookup_fail_fast (n m : String) (hf hg : Hutfile)
    (hb : ∀ bk, bk ∈ bases → nameMatches (BaseOS.name bk) n = false)
    (hs : ∀ sk, sk ∈ stacksList → nameMatches (Stack.name sk) m = false)
    (hhf : ∀ bk, bk ∈ bases → nameMatches (BaseOS.name bk) hf.baseos = false)
    (hhg : ∀ sk, sk ∈ stacksList → nameMatches (Stack.name sk) hg.stack = false) :
    get_base n = Except.error PyErr.indexError
    ∧ get_stack m = Except.error PyErr.indexError
    ∧ Service.init hf = Except.error PyErr.indexError
    ∧ Service.init hg = Except.error PyErr.indexError
    ∧ get_base "fedora" = Except.ok BaseKind.fedora
    ∧ get_base "alpine" = Except.ok BaseKind.alpine
    ∧ get_stack "python" = Except.ok StackKind.python
    ∧ get_stack "nodejs" = Except.ok StackKind.nodejs := by
  refine ⟨get_base_missing n hb, get_stack_missing m hs, ?_, ?_, rfl, rfl, rfl, rfl⟩
  · have hgb := get_base_missing hf.baseos hhf
    simp [Service.init, hgb]
  · have hgs := get_stack_missing hg.stack hhg
    cases hgb : get_base hg.baseos with
    | error e =>
        have he := get_base_error_indexError hg.baseos e hgb
        simp [Service.init, hgb, he]
    | ok b => simp [Service.init, hgb, hgs]

/-- C8 witness: the unknown names ruby and haskell fail, a manifest
with unknown baseos ubuntu fails, a manifest with the valid baseos
alpine but unknown stack haskell fails, and every catalog name
succeeds, at concrete inputs. -/
theorem c8_witness :
    get_base "ruby" = Except.error PyErr.indexError
    ∧ get_stack "haskell" = Except.error PyErr.indexError
    ∧ Service.init
        { name := "Foo"
          author := "Bar"
          contact := "a@b.com"
          description := "d"
          baseos := "ubuntu"
          stack := "python"
          files := none }
      = Except.error PyErr.indexError
    ∧ Service.init
        { name := "Foo"
          author := "Bar"
          contact := "a@b.com"
          description := "d"
          baseos := "alpine"
          stack := "haskell"
          files := none }
      = Except.error PyErr.indexError
    ∧ get_base "fedora" = Except.ok BaseKind.fedora
    ∧ get_base "alpine" = Except.ok BaseKind.alpine
    ∧ get_stack "python" = Except.ok StackKind.python
    ∧ get_stack "nodejs" = Except.ok StackKind.nodejs :=
  c8_catalog_lookup_fail_fast "ruby" "haskell"
    { name := "Foo"
      author := "Bar"
      contact := "a@b.com"
      description := "d"
      baseos := "ubuntu"
      stack := "python"
      files := none }
    { name := "Foo"
      author := "Bar"
      contact := "a@b.com"
      description := "d"
      baseos := "alpine"
      stack := "haskell"
      files := none }
    (by decide) (by decide) (by decide) (by decide)

/-- Helper: the guarded mkdir of DockerEnv.build never lets the
FileExistsError of os.mkdir surface, whatever the prior state. -/
theorem build_never_fileExists (tmpl od n : String) (push r b p : Bool)
    (s : BuildState) :
    (DockerEnv.build tmpl od n push r b p s).snd ≠ some PyErr.fileExists := by
  unfold DockerEnv.build os_mkdir
  by_cases hc : s.dirs.contains (pathJoin s.cwd (pathJoin od n)) = true
  · simp only [if_pos hc]
    repeat' split
    all_goals simp
  · simp only [if_neg hc]
    repeat' split
    all_goals simp

/-- Helper: when the staging directory already exists, DockerEnv.build
leaves the directory set unchanged. -/
theorem build_reuses_existing_dir (tmpl od n : String) (push r b p : Bool)
    (s : BuildState) (hc : s.dirs.contains (pathJoin s.cwd (pathJoin od n)) = true) :
    (DockerEnv.build tmpl od n push r b p s).fst.dirs = s.dirs := by
  unfold DockerEnv.build
  simp only [if_pos hc]
  repeat' split
  all_goals simp [addEvent]

/-- C9: staging-directory creation in the shared build procedure is
idempotent: one build never fails with the already-exists error, a
second build for the same image name (from the state the first one
left) never fails with it either, and when the staging directory is
already present it is reused, with the directory set left unchanged. -/
theorem c9_staging_dir_idempotent (tmpl od n : String) (push r b p : Bool)
    (s : BuildState) :
    (DockerEnv.build tmpl od n push r b p s).snd ≠ some PyErr.fileExists
    ∧ (DockerEnv.build tmpl od n push r b p
        (DockerEnv.build tmpl od n push r b p s).fst).snd ≠ some PyErr.fileExists
    ∧ (s.dirs.contains (pathJoin s.cwd (pathJoin od n)) = true →
        (DockerEnv.build tmpl od n push r b p s).fst.dirs = s.dirs) :=
  ⟨build_never_fileExists tmpl od n push r b p s,
   build_never_fileExists tmpl od n push r b p _,
   fun hc => build_reuses_existing_dir tmpl od n push r b p s hc⟩

/-- C9 witness: building twice for the image name fedora from a fresh
state, with the directory present before the second build. -/
theorem c9_witness :
    ((DockerEnv.build "Dockerfile-base.txt" "stacks" "fedora" false true true true
        initState).fst.dirs.contains (pathJoin "" (pathJoin "stacks" "fedora")) = true)
    ∧ (DockerEnv.build "Dockerfile-base.txt" "stacks" "fedora" false true true true
        (DockerEnv.build "Dockerfile-base.txt" "stacks" "fedora" false true true true
          initState).fst).snd ≠ some PyErr.fileExists :=
  ⟨by decide,
   (c9_staging_dir_idempotent "Dockerfile-base.txt" "stacks" "fedora" false true true true
      initState).2.1⟩

/-- Helper: the exact event trace of one successful run of the shared
build procedure, for any prior state. -/
theorem build_events_all_ok (tmpl od n : String) (push : Bool) (s : BuildState) :
    (DockerEnv.build tmpl od n push true true true s).fst.events
      = s.events
        ++ [Event.render tmpl,
            Event.writeFile (pathJoin (pathJoin s.cwd (pathJoin od n)) "Dockerfile"),
            Event.dockerBuild ("stackhut/" ++ n ++ ":latest")]
        ++ (if push then [Event.dockerPush ("stackhut/" ++ n ++ ":latest")] else []) := by
  unfold DockerEnv.build os_mkdir
  by_cases hc : s.dirs.contains (pathJoin s.cwd (pathJoin od n)) = true
  · simp only [if_pos hc]
    cases push <;> simp [addEvent]
  · simp only [if_neg hc]
    cases push <;> simp [addEvent]

/-- C10: every docker build issued by a catalog build carries the fixed
namespace and version around the image name. For every base of the
catalog, the tag of the image its build issues is stackhut/, the base
name, :latest; for every (base, stack) pair of the catalog whose build
issues a docker build at all, the tag is stackhut/, the base name, a
dash, the stack name, :latest — the full namespaced form, not the bare
base-stack string. -/
theorem c10_catalog_image_tags (outdir : String) (push : Bool) (s : BuildState)
    (h : s.events = []) (bk : BaseKind) (hb : bk ∈ bases)
    (sk : StackKind) (hs : sk ∈ stacksList) (t : String) :
    (Event.dockerBuild t ∈ (BaseOS.build bk outdir push true true true s).fst.events →
      t = "stackhut/" ++ pyFormatName (BaseOS.name bk) ++ ":latest")
    ∧ (Event.dockerBuild t ∈ (Stack.build sk (PyVal.vbase bk) (PyVal.vstr outdir)
          (PyVal.vbool push) true true true s).fst.events →
      t = "stackhut/" ++ pyFormatName (BaseOS.name bk) ++ "-"
          ++ pyFormatName (Stack.name sk) ++ ":latest") := by
  have hb2 : bk = BaseKind.fedora ∨ bk = BaseKind.alpine := by
    simpa [bases] using hb
  have hs2 : sk = StackKind.python ∨ sk = StackKind.nodejs := by
    simpa [stacksList] using hs
  rcases hb2 with rfl | rfl <;> rcases hs2 with rfl | rfl <;>
    refine ⟨fun hmem => ?_, fun hmem => ?_⟩ <;>
    · simp only [BaseOS.build, Stack.build, BaseOS.name, Stack.name, pyFormatName,
        get_stack_install_cmd, pyTruthy] at hmem ⊢
      first
        | (rw [build_events_all_ok] at hmem
           cases push <;> simp_all [h])
        | simp_all [h]

/-- C10 witness: the combination of Alpine and Python built from a
fresh state, probed at the full namespaced tag. -/
theorem c10_witness :
    (Event.dockerBuild "stackhut/alpine-python:latest"
        ∈ (BaseOS.build BaseKind.alpine "stacks" false true true true initState).fst.events →
      "stackhut/alpine-python:latest"
        = "stackhut/" ++ pyFormatName (BaseOS.name BaseKind.alpine) ++ ":latest")
    ∧ (Event.dockerBuild "stackhut/alpine-python:latest"
        ∈ (Stack.build StackKind.python (PyVal.vbase BaseKind.alpine) (PyVal.vstr "stacks")
            (PyVal.vbool false) true true true initState).fst.events →
      "stackhut/alpine-python:latest"
        = "stackhut/" ++ pyFormatName (BaseOS.name BaseKind.alpine) ++ "-"
          ++ pyFormatName (Stack.name StackKind.python) ++ ":latest") :=
  c10_catalog_image_tags "stacks" false initState rfl BaseKind.alpine (by decide)
    StackKind.python (by decide) "stackhut/alpine-python:latest"
